import Mathlib

/-!
Shallow embedding of `src/index.py` (freezy): a Slack slash-command webhook
that verifies request signatures and maintains an in-memory set of frozen
repository names, with handlers for `/help`, `/check`, `/freeze`, `/unfreeze`.

Python strings are Lean `String`s; the Python `set` `frozen_repos` is a
`Finset String`; the outbound Slack call (`requests.post`) is modelled by the
boolean outcome of the platform's `"ok"` field; the HMAC-SHA256 primitive from
`hashlib`/`hmac` is an abstract parameter function (it is a library primitive,
not code of this repository).
-/

namespace Freezy

/-- Whitespace as recognised by Python's `str.strip()`. -/
def isPySpace (c : Char) : Bool :=
  c = ' ' || c = '\t' || c = '\n' || c = '\x0d' || c = '\x0b' || c = '\x0c'

/-- Python `str.strip()`: drop leading and trailing whitespace. -/
def pyStrip (s : String) : String :=
  ⟨((s.data.dropWhile isPySpace).reverse.dropWhile isPySpace).reverse⟩

/-- Python `str.upper()` on a single character (ASCII range, which covers the
repository names and command words this service handles). -/
def pyUpperChar (c : Char) : Char :=
  if 'a' ≤ c ∧ c ≤ 'z' then Char.ofNat (c.toNat - 32) else c

/-- Python `str.lower()` on a single character (ASCII range). -/
def pyLowerChar (c : Char) : Char :=
  if 'A' ≤ c ∧ c ≤ 'Z' then Char.ofNat (c.toNat + 32) else c

/-- Python `str.upper()`. -/
def pyUpper (s : String) : String := ⟨s.data.map pyUpperChar⟩

/-- Python `str.lower()`. -/
def pyLower (s : String) : String := ⟨s.data.map pyLowerChar⟩

/-- Python `str.split(",")` on the character list, keeping empty pieces
(`"".split(",") == [""]`, `",".split(",") == ["", ""]`). -/
def splitCommaAux : List Char → List Char → List (List Char)
  | [], acc => [acc.reverse]
  | c :: rest, acc =>
    if c = ',' then acc.reverse :: splitCommaAux rest [] else splitCommaAux rest (c :: acc)

/-- Python `repo_name.split(",")`. -/
def pySplitComma (s : String) : List String :=
  (splitCommaAux s.data []).map String.mk

/-- Line 94 of `index.py`:
`{repo.strip().upper() for repo in repo_name.split(",") if repo.strip()}` —
split on commas, keep pieces whose strip is non-empty (Python truthiness),
normalise each by strip-then-upper, collect into a set. -/
def parseRepos (repo_name : String) : Finset String :=
  (((pySplitComma repo_name).filter fun r => pyStrip r ≠ "").map
    fun r => pyUpper (pyStrip r)).toFinset

/-- The reply messages the handlers produce.  Fixed-text messages are bare
constructors; messages that interpolate a joined list of repository names carry
the set of names instead of a rendered string, because the source joins a
Python `set` whose iteration order is unspecified. -/
inductive Msg
  | helpText
  | noFrozen
  | frozenList (repos : Finset String)
  | freezePrompt
  | freezePlaced (repos : Finset String)
  | unfreezePrompt
  | liftedAll
  | noneSpecified
  | lifted (repos : Finset String)
  deriving DecidableEq

/-- The literal source text of each fixed message (`none` for the messages
whose text interpolates a set join with unspecified iteration order). -/
def msgFixedText : Msg → Option String
  | .noFrozen => some "✅ No repositories are currently on code freeze."
  | .freezePrompt => some "❄️ Please specify a repository to freeze. Example: `/freeze api`"
  | .unfreezePrompt => some "🔥 Please specify a repository to unfreeze. Example: `/unfreeze api`"
  | .liftedAll => some "🔥 Code freeze lifted on *all* repositories."
  | .noneSpecified => some "⚠️ None of the specified repositories are on code freeze."
  | _ => none

/-- Outcome of one handler: the `frozen_repos` set after the handler ran, the
message it passed to `send_slack_message`, and the `ephemeral` flag. -/
structure HandlerResult where
  state : Finset String
  msg : Msg
  ephemeral : Bool
  deriving DecidableEq

/-- `handle_help` (lines 78-80): static usage text, ephemeral. -/
def handle_help (S : Finset String) : HandlerResult :=
  ⟨S, .helpText, true⟩

/-- `handle_check` (lines 82-88): empty-state message or the list of frozen
repositories, ephemeral; never mutates the set. -/
def handle_check (S : Finset String) : HandlerResult :=
  ⟨S, if S = ∅ then .noFrozen else .frozenList S, true⟩

/-- `handle_freeze` (lines 90-97): empty argument prompts (ephemeral);
otherwise the parsed set is unioned into `frozen_repos` (line 95, before the
Slack call) and the added names are confirmed, broadcast. -/
def handle_freeze (repo_name : String) (S : Finset String) : HandlerResult :=
  if repo_name = "" then ⟨S, .freezePrompt, true⟩
  else ⟨S ∪ parseRepos repo_name, .freezePlaced (parseRepos repo_name), false⟩

/-- `handle_unfreeze` (lines 99-120): empty argument prompts (ephemeral);
`all` (case-insensitive) either reports the empty state or clears the set,
both sent with `ephemeral=False` (line 110); otherwise the parsed set is
intersected with `frozen_repos` — empty intersection warns (ephemeral), else
the intersection is removed (line 118, before the Slack call), broadcast. -/
def handle_unfreeze (repo_name : String) (S : Finset String) : HandlerResult :=
  if repo_name = "" then ⟨S, .unfreezePrompt, true⟩
  else if pyLower repo_name = "all" then
    if S = ∅ then ⟨S, .noFrozen, false⟩
    else ⟨∅, .liftedAll, false⟩
  else
    if parseRepos repo_name ∩ S = ∅ then ⟨S, .noneSpecified, true⟩
    else ⟨S \ (parseRepos repo_name ∩ S), .lifted (parseRepos repo_name ∩ S), false⟩

/-- `send_slack_message` (lines 34-49): posts to the ephemeral or broadcast
endpoint and returns `("", 200)` when the platform reports `"ok": true`, else
`("Error occurred", 500)`.  The channel/message/user arguments only shape the
outbound payload; `notifierOk` is the platform's reported outcome. -/
def send_slack_message (channel_id : String) (message : Msg) (ephemeral : Bool)
    (user_id : String) (notifierOk : Bool) : String × Nat :=
  if notifierOk then ("", 200) else ("Error occurred", 500)

/-- The `/slack/command` endpoint body after signature verification
(lines 52-76): reads `command`, strips `text` (line 60), dispatches to the
matching handler, or answers `("Unknown command 🤖", 400)` directly without
calling the notifier.  Returns the set after the request and the HTTP reply. -/
def slack_command (command : Option String) (text : Option String)
    (channel_id user_id : String) (S : Finset String) (notifierOk : Bool) :
    Finset String × String × Nat :=
  let command_text := pyStrip (text.getD "")
  match command with
  | some "/help" =>
    let r := handle_help S
    (r.state, send_slack_message channel_id r.msg r.ephemeral user_id notifierOk)
  | some "/check" =>
    let r := handle_check S
    (r.state, send_slack_message channel_id r.msg r.ephemeral user_id notifierOk)
  | some "/freeze" =>
    let r := handle_freeze command_text S
    (r.state, send_slack_message channel_id r.msg r.ephemeral user_id notifierOk)
  | some "/unfreeze" =>
    let r := handle_unfreeze command_text S
    (r.state, send_slack_message channel_id r.msg r.ephemeral user_id notifierOk)
  | _ => (S, ("Unknown command 🤖", 400))

/-- Digit-string core of Python `int()`: non-empty all-digit character list. -/
def pyIntCore (l : List Char) : Option Nat :=
  if l ≠ [] ∧ l.all Char.isDigit then
    some (l.foldl (fun a c => 10 * a + (c.toNat - 48)) 0)
  else none

/-- Python `int(s)` on an optionally signed decimal string: `none` models the
`ValueError` raised on any other input (`"abc"`, `"12.5"`, `""`, `"+"`). -/
def pyInt (s : String) : Option Int :=
  match s.data with
  | '-' :: rest => (pyIntCore rest).map fun n => -(n : Int)
  | '+' :: rest => (pyIntCore rest).map fun n => (n : Int)
  | l => (pyIntCore l).map fun n => (n : Int)

/-- `verify_slack_request` (lines 19-31).  `now` is `time.time()` in seconds;
the two headers are `Option String` (`none` when absent, and Python's `not`
also treats the empty string as missing); `hmacSha256Hex key msg` abstracts
`hmac.new(key, msg, sha256).hexdigest()`.  `hmac.compare_digest` is a
constant-time string equality; its timing behaviour is not modelled, its value
is equality.  `.error ()` models the uncaught `ValueError` that
`int(timestamp)` raises on a non-numeric timestamp header. -/
def verify_slack_request (signingSecret : String)
    (hmacSha256Hex : String → String → String) (now : Int)
    (timestamp slack_signature : Option String) (body : String) :
    Except Unit Bool :=
  if timestamp.getD "" = "" ∨ slack_signature.getD "" = "" then .ok false
  else
    match pyInt (timestamp.getD "") with
    | none => .error ()
    | some n =>
      if 300 < (now - n).natAbs then .ok false
      else
        let base := "v0:" ++ timestamp.getD "" ++ ":" ++ body
        let computed := "v0=" ++ hmacSha256Hex signingSecret base
        .ok (decide (computed = slack_signature.getD ""))

/-- One logical operation against the store, as issued through the webhook
(the raw `text` is stripped by the dispatcher before the handler sees it). -/
inductive Op
  | freezeOp (text : String)
  | unfreezeOp (text : String)
  | checkOp

/-- The `frozen_repos` set after one operation. -/
def applyOp (S : Finset String) : Op → Finset String
  | .freezeOp t => (handle_freeze (pyStrip t) S).state
  | .unfreezeOp t => (handle_unfreeze (pyStrip t) S).state
  | .checkOp => (handle_check S).state

/-- The `frozen_repos` set after a sequence of operations. -/
def runOps (ops : List Op) (S : Finset String) : Finset String :=
  ops.foldl applyOp S

/-- A string is in normalised form when it is the strip-then-upper image of
some input (the form in which line 94 stores every name). -/
def normalizedStr (x : String) : Prop :=
  ∃ r, x = pyUpper (pyStrip r)

/-- Line 95, `frozen_repos.update(repos)`: set union. -/
def freezeUpdate (S P : Finset String) : Finset String := S ∪ P

/-- Lines 112-118: `repos.intersection(frozen_repos)` is removed via
`difference_update` when non-empty, and nothing is removed when it is empty —
in either case the resulting set is `S \ (P ∩ S)`. -/
def unfreezeUpdate (S P : Finset String) : Finset String := S \ (P ∩ S)

/-! ### Helper lemmas about the handlers' state component -/

lemma parseRepos_empty : parseRepos "" = ∅ := by decide

/-- The set after `handle_freeze` is always the union of line 95 (an empty
argument leaves the set alone, which is union with the empty parse). -/
lemma handle_freeze_state (t : String) (S : Finset String) :
    (handle_freeze t S).state = freezeUpdate S (parseRepos t) := by
  unfold handle_freeze freezeUpdate
  by_cases h : t = ""
  · subst h
    rw [if_pos rfl, parseRepos_empty, Finset.union_empty]
  · rw [if_neg h]

/-- Outside the `all` branch, the set after `handle_unfreeze` is always
`S \ (parse ∩ S)` (both the warning branch and the removal branch). -/
lemma handle_unfreeze_state (t : String) (S : Finset String)
    (hall : pyLower t ≠ "all") :
    (handle_unfreeze t S).state = unfreezeUpdate S (parseRepos t) := by
  unfold handle_unfreeze unfreezeUpdate
  by_cases h : t = ""
  · subst h
    rw [if_pos rfl, parseRepos_empty]
    simp
  · rw [if_neg h, if_neg hall]
    by_cases hi : parseRepos t ∩ S = ∅
    · rw [if_pos hi, hi]
      simp
    · rw [if_neg hi]

lemma unfreezeUpdate_sdiff (S P : Finset String) : unfreezeUpdate S P = S \ P := by
  unfold unfreezeUpdate
  ext x
  simp only [Finset.mem_sdiff, Finset.mem_inter]
  tauto

/-- `handle_unfreeze` never adds elements to the set. -/
lemma handle_unfreeze_state_subset (t : String) (S : Finset String) :
    (handle_unfreeze t S).state ⊆ S := by
  unfold handle_unfreeze
  split_ifs <;> first
    | exact Finset.Subset.refl _
    | exact Finset.empty_subset _
    | exact Finset.sdiff_subset

lemma mem_handle_freeze_state (t : String) (S : Finset String) (x : String)
    (hx : x ∈ (handle_freeze t S).state) : x ∈ S ∨ x ∈ parseRepos t := by
  rw [handle_freeze_state] at hx
  exact Finset.mem_union.mp hx

/-- Every element produced by the line-94 parse is a strip-then-upper image. -/
lemma mem_parseRepos_normalized (t x : String) (hx : x ∈ parseRepos t) :
    normalizedStr x := by
  unfold parseRepos at hx
  rw [List.mem_toFinset] at hx
  obtain ⟨r, _, rfl⟩ := List.mem_map.mp hx
  exact ⟨r, rfl⟩

/-- Normalisation is preserved by every operation sequence. -/
lemma runOps_normalized (ops : List Op) (S : Finset String)
    (hS : ∀ x ∈ S, normalizedStr x) : ∀ x ∈ runOps ops S, normalizedStr x := by
  induction ops generalizing S with
  | nil => exact hS
  | cons op rest ih =>
    refine ih _ ?_
    intro x hx
    match op with
    | .checkOp => exact hS x hx
    | .freezeOp t =>
      rcases mem_handle_freeze_state (pyStrip t) S x hx with h | h
      · exact hS x h
      · exact mem_parseRepos_normalized _ x h
    | .unfreezeOp t => exact hS x (handle_unfreeze_state_subset (pyStrip t) S hx)

/-! ### Claim theorems -/

/-- C1 counterexample: a `/freeze API` request on which the notifier reports
non-ok is answered with the 500 `Error occurred` failure response, yet the
frozen-repo set has been mutated from `∅` to `{"API"}` by that same request —
refuting "the frozen-repo set is left unchanged by that request" for
NotifierFailure. -/
theorem notifier_failure_after_freeze_mutation :
    slack_command (some "/freeze") (some "API") "C" "U" ∅ false
      = ({"API"}, ("Error occurred", 500)) ∧
    ({"API"} : Finset String) ≠ (∅ : Finset String) := by
  decide

/-- C1 (amended): failures reported before any mutation — validation failures
(empty argument, both handlers) and no-op failures (unfreeze with empty
intersection, unfreeze `all` on an empty set) — leave the frozen-repo set
unchanged; a NotifierFailure, however, is reported only after the mutation of
lines 95/108/118: for every freeze or unfreeze request (including the `all`
clear and the intersection removal) the set after the request is exactly the
handler's mutated state whatever the notifier reports, so the 500 response
does not undo the mutation. -/
theorem failures_and_state_mutation (S : Finset String) (t ch u : String)
    (ok : Bool) :
    (handle_freeze "" S).state = S ∧
    (handle_unfreeze "" S).state = S ∧
    (pyLower t ≠ "all" → parseRepos t ∩ S = ∅ →
      (handle_unfreeze t S).state = S) ∧
    (handle_unfreeze "all" ∅).state = (∅ : Finset String) ∧
    (slack_command (some "/freeze") (some t) ch u S ok).1 =
      (handle_freeze (pyStrip t) S).state ∧
    (slack_command (some "/unfreeze") (some t) ch u S ok).1 =
      (handle_unfreeze (pyStrip t) S).state ∧
    (slack_command (some "/freeze") (some t) ch u S ok).1 =
      (slack_command (some "/freeze") (some t) ch u S true).1 ∧
    (slack_command (some "/unfreeze") (some t) ch u S ok).1 =
      (slack_command (some "/unfreeze") (some t) ch u S true).1 := by
  refine ⟨rfl, rfl, ?_, rfl, rfl, rfl, rfl, rfl⟩
  intro hall hinter
  rw [handle_unfreeze_state t S hall, unfreezeUpdate_sdiff]
  rw [Finset.sdiff_eq_self_iff_disjoint, Finset.disjoint_left]
  intro a ha haP
  have : a ∈ parseRepos t ∩ S := Finset.mem_inter.mpr ⟨haP, ha⟩
  rw [hinter] at this
  exact absurd this (Finset.not_mem_empty a)

/-- Witness for C1 (amended): the no-op branch at `t = "B"`, `S = {"A"}`, and
the two unfreeze mutation paths under a failing notifier — `unfreeze all` on
`{"A"}` still ends with the empty set, `unfreeze "a"` on `{"A"}` still ends
with the intersection removed, both equal to the successful-notifier state. -/
theorem failures_and_state_mutation_witness :
    (handle_unfreeze "B" {"A"}).state = {"A"} ∧
    (slack_command (some "/unfreeze") (some "all") "C" "U" {"A"} false).1
      = (∅ : Finset String) ∧
    (slack_command (some "/unfreeze") (some "all") "C" "U" {"A"} false).1
      = (slack_command (some "/unfreeze") (some "all") "C" "U" {"A"} true).1 ∧
    (slack_command (some "/unfreeze") (some "a") "C" "U" {"A"} false).1
      = (∅ : Finset String) ∧
    (slack_command (some "/freeze") (some "B") "C" "U" {"A"} false).1
      = (slack_command (some "/freeze") (some "B") "C" "U" {"A"} true).1 :=
  ⟨(failures_and_state_mutation {"A"} "B" "C" "U" false).2.2.1
      (by decide) (by decide),
   ((failures_and_state_mutation {"A"} "all" "C" "U" false).2.2.2.2.2.1).trans
      (by decide),
   (failures_and_state_mutation {"A"} "all" "C" "U" false).2.2.2.2.2.2.2,
   ((failures_and_state_mutation {"A"} "a" "C" "U" false).2.2.2.2.2.1).trans
      (by decide),
   (failures_and_state_mutation {"A"} "B" "C" "U" false).2.2.2.2.2.2.1⟩

/-- C2 counterexample: the argument `","` (only a comma) is not treated as
empty — `handle_freeze` replies with the broadcast `Code freeze placed on`
message carrying no names (ephemeral is `false`), not the private prompt, and
the whole request succeeds with 200. -/
theorem comma_only_argument_not_prompted :
    handle_freeze (pyStrip ",") ∅ = ⟨∅, .freezePlaced ∅, false⟩ ∧
    Msg.freezePlaced ∅ ≠ Msg.freezePrompt ∧
    slack_command (some "/freeze") (some ",") "C" "U" ∅ true
      = (∅, ("", 200)) := by
  decide

/-- C2 (amended): an argument that strips to the empty string is treated as
empty (private prompt, set untouched); an argument that is non-empty after
stripping but contains no repository names (only commas/whitespace, which is
never `all`) still leaves the set unmutated, but freeze answers the broadcast
`freezePlaced` message listing no names and unfreeze answers the private
`noneSpecified` warning — not the prompt. -/
theorem comma_whitespace_argument_behavior (S : Finset String) (text : String)
    (hp : parseRepos (pyStrip text) = ∅) :
    (handle_freeze (pyStrip text) S).state = S ∧
    (pyLower (pyStrip text) ≠ "all" →
      (handle_unfreeze (pyStrip text) S).state = S) ∧
    (pyStrip text = "" →
      handle_freeze (pyStrip text) S = ⟨S, .freezePrompt, true⟩ ∧
      handle_unfreeze (pyStrip text) S = ⟨S, .unfreezePrompt, true⟩) ∧
    (pyStrip text ≠ "" →
      handle_freeze (pyStrip text) S = ⟨S, .freezePlaced ∅, false⟩ ∧
      (pyLower (pyStrip text) ≠ "all" →
        handle_unfreeze (pyStrip text) S = ⟨S, .noneSpecified, true⟩)) := by
  refine ⟨?_, ?_, ?_, ?_⟩
  · rw [handle_freeze_state, hp]
    exact Finset.union_empty S
  · intro hall
    rw [handle_unfreeze_state _ _ hall, unfreezeUpdate_sdiff, hp]
    exact Finset.sdiff_empty
  · intro h
    rw [h]
    exact ⟨rfl, rfl⟩
  · intro h
    constructor
    · unfold handle_freeze
      rw [if_neg h, hp, Finset.union_empty]
    · intro hall
      unfold handle_unfreeze
      rw [if_neg h, if_neg hall, if_pos (by rw [hp]; exact Finset.empty_inter S)]

/-- Witness for C2 (amended) at `text = ","`, `S = {"A"}`. -/
theorem comma_whitespace_argument_behavior_witness :
    parseRepos (pyStrip ",") = ∅ ∧
    (handle_freeze (pyStrip ",") {"A"}).state = {"A"} ∧
    handle_unfreeze (pyStrip ",") {"A"} = ⟨{"A"}, .noneSpecified, true⟩ :=
  ⟨by decide,
   (comma_whitespace_argument_behavior {"A"} "," (by decide)).1,
   ((comma_whitespace_argument_behavior {"A"} "," (by decide)).2.2.2
      (by decide)).2 (by decide)⟩

/-- C3 counterexample: `unfreeze all` on an empty set sends the
`no repositories are currently on code freeze` reply with `ephemeral = false`
(line 110 passes `False` for every `all` outcome) — a broadcast, refuting the
claimed private (ephemeral, requester-only) warning. -/
theorem unfreeze_all_empty_reply_broadcast :
    (handle_unfreeze "all" ∅).ephemeral = false ∧
    (handle_unfreeze "all" ∅).msg = Msg.noFrozen ∧
    (handle_unfreeze "all" ∅).state = (∅ : Finset String) := by
  decide

/-- C3 (amended): `unfreeze all` (case-insensitive) while the frozen-repo set
is empty answers the `no repositories are currently on code freeze` reply as a
broadcast (`ephemeral = false`), not privately, and the set remains empty. -/
theorem unfreeze_all_on_empty_state (t : String) (h : pyLower t = "all") :
    handle_unfreeze t ∅ = ⟨∅, .noFrozen, false⟩ ∧
    msgFixedText .noFrozen
      = some "✅ No repositories are currently on code freeze." := by
  have ht : t ≠ "" := by
    intro h0
    rw [h0] at h
    exact absurd h (by decide)
  unfold handle_unfreeze
  rw [if_neg ht, if_pos h, if_pos rfl]
  exact ⟨rfl, rfl⟩

/-- Witness for C3 (amended) at `t = "ALL"`. -/
theorem unfreeze_all_on_empty_state_witness :
    handle_unfreeze "ALL" ∅ = ⟨∅, .noFrozen, false⟩ :=
  (unfreeze_all_on_empty_state "ALL" (by decide)).1

/-- C7: after any sequence of freeze/unfreeze/check operations starting from
the empty set of process start, every element of the frozen-repo set is in
normalised (strip-then-upper) form and duplicates collapse under set
semantics; in particular `freeze "A, a, A"` then `check` reports exactly the
single frozen entry `"A"`. -/
theorem frozen_repos_normalized_invariant (ops : List Op) (x : String)
    (hx : x ∈ runOps ops ∅) :
    normalizedStr x ∧
    runOps [.freezeOp "A, a, A"] ∅ = {"A"} ∧
    handle_check (runOps [.freezeOp "A, a, A"] ∅)
      = ⟨{"A"}, .frozenList {"A"}, true⟩ ∧
    ({"A"} : Finset String).card = 1 := by
  refine ⟨?_, by decide, by decide, by decide⟩
  refine runOps_normalized ops ∅ ?_ x hx
  intro y hy
  exact absurd hy (Finset.not_mem_empty y)

/-- Witness for C7 at `ops = [freeze "a"]`, `x = "A"`. -/
theorem frozen_repos_normalized_invariant_witness :
    ("A" : String) ∈ runOps [.freezeOp "a"] ∅ ∧ normalizedStr "A" :=
  ⟨by decide,
   (frozen_repos_normalized_invariant [.freezeOp "a"] "A" (by decide)).1⟩

/-- C8: a non-`all` unfreeze whose parsed names have empty intersection with
the frozen-repo set answers the private `noneSpecified` warning and leaves the
set exactly unchanged; otherwise it removes exactly the intersection and
confirms the removed names with a broadcast reply. -/
theorem unfreeze_intersection_semantics (S : Finset String) (t : String)
    (hne : t ≠ "") (hall : pyLower t ≠ "all") :
    (parseRepos t ∩ S = ∅ →
      handle_unfreeze t S = ⟨S, .noneSpecified, true⟩ ∧
      msgFixedText .noneSpecified
        = some "⚠️ None of the specified repositories are on code freeze.") ∧
    (parseRepos t ∩ S ≠ ∅ →
      handle_unfreeze t S
        = ⟨S \ (parseRepos t ∩ S), .lifted (parseRepos t ∩ S), false⟩) := by
  unfold handle_unfreeze
  rw [if_neg hne, if_neg hall]
  constructor
  · intro hi
    rw [if_pos hi]
    exact ⟨rfl, rfl⟩
  · intro hi
    rw [if_neg hi]

/-- Witness for C8: unfreeze `"B"` against `{"A"}` (empty intersection) and
unfreeze `"a"` against `{"A"}` (intersection `{"A"}`). -/
theorem unfreeze_intersection_semantics_witness :
    handle_unfreeze "B" {"A"} = ⟨{"A"}, .noneSpecified, true⟩ ∧
    handle_unfreeze "a" {"A"}
      = ⟨{"A"} \ (parseRepos "a" ∩ {"A"}), .lifted (parseRepos "a" ∩ {"A"}),
         false⟩ :=
  ⟨((unfreeze_intersection_semantics {"A"} "B" (by decide) (by decide)).1
      (by decide)).1,
   (unfreeze_intersection_semantics {"A"} "a" (by decide) (by decide)).2
      (by decide)⟩

/-- C9: `unfreeze all` (case-insensitive) on a non-empty frozen-repo set
empties it entirely (broadcast `liftedAll` confirmation), and a `check`
afterwards reports the empty-state message. -/
theorem unfreeze_all_clears_nonempty (S : Finset String) (t : String)
    (hS : S ≠ ∅) (h : pyLower t = "all") :
    (handle_unfreeze t S).state = ∅ ∧
    (handle_unfreeze t S).msg = .liftedAll ∧
    (handle_unfreeze t S).ephemeral = false ∧
    handle_check (handle_unfreeze t S).state = ⟨∅, .noFrozen, true⟩ ∧
    msgFixedText .noFrozen
      = some "✅ No repositories are currently on code freeze." := by
  have ht : t ≠ "" := by
    intro h0
    rw [h0] at h
    exact absurd h (by decide)
  unfold handle_unfreeze
  rw [if_neg ht, if_pos h, if_neg hS]
  refine ⟨rfl, rfl, rfl, ?_, rfl⟩
  unfold handle_check
  rw [if_pos rfl]

/-- Witness for C9 at `S = {"API"}`, `t = "All"`. -/
theorem unfreeze_all_clears_nonempty_witness :
    (handle_unfreeze "All" {"API"}).state = ∅ ∧
    handle_check (handle_unfreeze "All" {"API"}).state = ⟨∅, .noFrozen, true⟩ :=
  ⟨(unfreeze_all_clears_nonempty {"API"} "All" (by decide) (by decide)).1,
   (unfreeze_all_clears_nonempty {"API"} "All" (by decide)
      (by decide)).2.2.2.1⟩

/-- C10: the final frozen-repo set does not depend on how names are batched
across calls: the per-call union (line 95) and removal of the intersection
(lines 113/118) satisfy `op (op S P) Q = op S (P ∪ Q)` and commute in `P`,
`Q`; each handler's state change is exactly that set operation on its parsed
argument (for unfreeze, when the argument is not `all`); and concretely
`freeze "A,B"` equals `freeze "A"` then `freeze "B"`, and batched unfreeze
agrees with split unfreeze. -/
theorem freeze_unfreeze_batching_invariance (S P Q : Finset String)
    (t : String) (hall : pyLower t ≠ "all") :
    freezeUpdate (freezeUpdate S P) Q = freezeUpdate S (P ∪ Q) ∧
    freezeUpdate (freezeUpdate S P) Q = freezeUpdate (freezeUpdate S Q) P ∧
    unfreezeUpdate (unfreezeUpdate S P) Q = unfreezeUpdate S (P ∪ Q) ∧
    unfreezeUpdate (unfreezeUpdate S P) Q
      = unfreezeUpdate (unfreezeUpdate S Q) P ∧
    (handle_freeze t S).state = freezeUpdate S (parseRepos t) ∧
    (handle_unfreeze t S).state = unfreezeUpdate S (parseRepos t) ∧
    runOps [.freezeOp "A,B"] ∅ = runOps [.freezeOp "A", .freezeOp "B"] ∅ ∧
    runOps [.freezeOp "A,B", .unfreezeOp "A,B"] ∅
      = runOps [.freezeOp "A,B", .unfreezeOp "B", .unfreezeOp "A"] ∅ := by
  refine ⟨?_, ?_, ?_, ?_, handle_freeze_state t S,
    handle_unfreeze_state t S hall, by decide, by decide⟩
  · exact Finset.union_assoc S P Q
  · unfold freezeUpdate
    rw [Finset.union_assoc, Finset.union_assoc, Finset.union_comm P Q]
  · rw [unfreezeUpdate_sdiff, unfreezeUpdate_sdiff, unfreezeUpdate_sdiff]
    ext a
    simp only [Finset.mem_sdiff, Finset.mem_union]
    tauto
  · rw [unfreezeUpdate_sdiff, unfreezeUpdate_sdiff, unfreezeUpdate_sdiff,
      unfreezeUpdate_sdiff]
    ext a
    simp only [Finset.mem_sdiff]
    tauto

/-- Witness for C10 at `S = ∅`, `P = {"A"}`, `Q = {"B"}`, `t = "X"`. -/
theorem freeze_unfreeze_batching_invariance_witness :
    freezeUpdate (freezeUpdate ∅ {"A"}) {"B"}
      = freezeUpdate ∅ ({"A"} ∪ {"B"}) ∧
    (handle_unfreeze "X" ∅).state = unfreezeUpdate ∅ (parseRepos "X") :=
  ⟨(freeze_unfreeze_batching_invariance ∅ {"A"} {"B"} "X" (by decide)).1,
   (freeze_unfreeze_batching_invariance ∅ {"A"} {"B"} "X"
      (by decide)).2.2.2.2.2.1⟩

/-! ### Helper lemmas about request verification -/

lemma v0_append_ne_empty (x : String) : "v0=" ++ x ≠ "" := by
  intro h
  have hd := congrArg String.data h
  rw [String.data_append,
    show ("v0=" : String).data = ['v', '0', '='] from rfl] at hd
  exact absurd hd (by simp)

lemma v0_append_left_cancel (a b : String) (h : "v0=" ++ a = "v0=" ++ b) :
    a = b := by
  have hd := congrArg String.data h
  rw [String.data_append, String.data_append] at hd
  exact String.ext (List.append_cancel_left hd)

lemma pyInt_ne_empty (t : String) (n : Int) (hparse : pyInt t = some n) :
    t ≠ "" := by
  intro h0
  rw [h0] at hparse
  exact Option.noConfusion (show (none : Option Int) = some n from hparse)

/-- With both headers present and non-empty and a parseable timestamp, the
verifier reduces to the freshness test followed by the signature test. -/
lemma verify_reduces (secret : String) (hmacSha256Hex : String → String → String)
    (now : Int) (t sig body : String) (n : Int) (ht : t ≠ "") (hsig : sig ≠ "")
    (hparse : pyInt t = some n) :
    verify_slack_request secret hmacSha256Hex now (some t) (some sig) body
      = if 300 < (now - n).natAbs then .ok false
        else .ok (decide
          ("v0=" ++ hmacSha256Hex secret ("v0:" ++ t ++ ":" ++ body) = sig)) := by
  unfold verify_slack_request
  simp only [Option.getD_some]
  rw [if_neg (not_or.mpr ⟨ht, hsig⟩), hparse]

/-- C4: the verifier accepts exactly when the supplied signature header equals
`v0=` followed by the HMAC-SHA256 hex digest of `v0:{timestamp}:{raw body}`
under the signing secret (`hmac.compare_digest` is modelled by its value,
string equality); consequently a request whose body yields a different digest
than the one the signature was computed over is rejected. -/
theorem verify_accept_iff_signature_matches (secret : String)
    (hmacSha256Hex : String → String → String) (now : Int)
    (t sig body tampered : String) (n : Int)
    (hparse : pyInt t = some n) (hfresh : (now - n).natAbs ≤ 300)
    (hsig : sig ≠ "")
    (hdiff : hmacSha256Hex secret ("v0:" ++ t ++ ":" ++ tampered)
      ≠ hmacSha256Hex secret ("v0:" ++ t ++ ":" ++ body)) :
    (verify_slack_request secret hmacSha256Hex now (some t) (some sig) body
        = .ok true ↔
      sig = "v0=" ++ hmacSha256Hex secret ("v0:" ++ t ++ ":" ++ body)) ∧
    verify_slack_request secret hmacSha256Hex now (some t)
      (some ("v0=" ++ hmacSha256Hex secret ("v0:" ++ t ++ ":" ++ body)))
      tampered = .ok false := by
  have ht := pyInt_ne_empty t n hparse
  constructor
  · rw [verify_reduces secret hmacSha256Hex now t sig body n ht hsig hparse,
      if_neg (not_lt.mpr hfresh)]
    simp only [Except.ok.injEq, decide_eq_true_eq]
    exact eq_comm
  · rw [verify_reduces secret hmacSha256Hex now t _ tampered n ht
      (v0_append_ne_empty _) hparse, if_neg (not_lt.mpr hfresh)]
    simp only [Except.ok.injEq, decide_eq_false_iff_not]
    intro h
    exact hdiff (v0_append_left_cancel _ _ h)

/-- Witness for C4 with the abstract digest instantiated by string
concatenation, `t = "7"`, `now = 7`, bodies `"B"` and `"T"`. -/
theorem verify_accept_iff_signature_matches_witness :
    (verify_slack_request "K" (fun k m => k ++ m) 7 (some "7") (some "x") "B"
        = .ok true ↔
      "x" = "v0=" ++ ("K" ++ "v0:7:B")) ∧
    verify_slack_request "K" (fun k m => k ++ m) 7 (some "7")
      (some ("v0=" ++ ("K" ++ "v0:7:B"))) "T" = .ok false :=
  verify_accept_iff_signature_matches "K" (fun k m => k ++ m) 7 "7" "x" "B"
    "T" 7 (by decide) (by decide) (by decide) (by decide)

/-- C5: the verifier rejects (returns the decision that yields the 401
response) whenever the timestamp header is absent, the signature header is
absent, the timestamp header is empty (Python `not` treats `""` as missing),
or the timestamp is parseable but further than 300 seconds from the current
time — the last regardless of the supplied signature. -/
theorem verify_rejects_missing_or_stale (secret : String)
    (hmacSha256Hex : String → String → String) (now : Int) (body sig t : String)
    (n : Int) (hparse : pyInt t = some n)
    (hstale : 300 < (now - n).natAbs) :
    verify_slack_request secret hmacSha256Hex now none (some sig) body
      = .ok false ∧
    verify_slack_request secret hmacSha256Hex now (some t) none body
      = .ok false ∧
    verify_slack_request secret hmacSha256Hex now (some "") (some sig) body
      = .ok false ∧
    verify_slack_request secret hmacSha256Hex now (some t) (some sig) body
      = .ok false := by
  have ht := pyInt_ne_empty t n hparse
  refine ⟨rfl, ?_, rfl, ?_⟩
  · unfold verify_slack_request
    rw [if_pos (show (some t).getD "" = "" ∨ (none : Option String).getD "" = ""
      from Or.inr rfl)]
  · by_cases hsig : sig = ""
    · unfold verify_slack_request
      rw [if_pos (show (some t).getD "" = "" ∨ (some sig).getD "" = ""
        from Or.inr hsig)]
    · rw [verify_reduces secret hmacSha256Hex now t sig body n ht hsig hparse,
        if_pos hstale]

/-- Witness for C5 at `t = "1000"`, `now = 0`. -/
theorem verify_rejects_missing_or_stale_witness :
    verify_slack_request "K" (fun k m => k ++ m) 0 none (some "s") "b"
      = .ok false ∧
    verify_slack_request "K" (fun k m => k ++ m) 0 (some "1000") (some "s") "b"
      = .ok false :=
  ⟨(verify_rejects_missing_or_stale "K" (fun k m => k ++ m) 0 "b" "s" "1000"
      1000 (by decide) (by decide)).1,
   (verify_rejects_missing_or_stale "K" (fun k m => k ++ m) 0 "b" "s" "1000"
      1000 (by decide) (by decide)).2.2.2⟩

/-- C6: with a present but non-numeric timestamp header (`"abc"`, `"12.5"`)
the verifier does not return a reject decision at all: `int(timestamp)`
raises, modelled by the `.error` outcome, so such a request is not answered
with the 401 unauthorized response — the timestamp parse is partial and its
error branch is reachable. -/
theorem verify_raises_on_nonnumeric_timestamp (secret : String)
    (hmacSha256Hex : String → String → String) (now : Int) (body : String) :
    verify_slack_request secret hmacSha256Hex now (some "abc") (some "v0=a")
      body = .error () ∧
    verify_slack_request secret hmacSha256Hex now (some "12.5") (some "v0=a")
      body = .error () ∧
    pyInt "abc" = none ∧
    pyInt "12.5" = none ∧
    (∀ b : Bool,
      verify_slack_request secret hmacSha256Hex now (some "abc") (some "v0=a")
        body ≠ .ok b) := by
  refine ⟨rfl, rfl, rfl, rfl, ?_⟩
  intro b h
  exact Except.noConfusion
    (show (Except.error () : Except Unit Bool) = .ok b from h)

end Freezy
